import Mathlib

/-!
Verification of the query-descriptor / filter-selection core of
`packages/firestore/src/api/observer.ts` (QueryParams, isPartialObserver),
via a shallow embedding: JavaScript runtime values become the inductive
type `AnyJs`, the mutable-looking `QueryParams` class becomes an immutable
Lean structure whose transition methods return new values (mirroring the
source's `copy_`-then-overwrite style field by field), and the wire/REST
objects become association lists built in the source's emission order.
-/

/-- JavaScript runtime values, as far as this core observes them
(`unknown` parameters, observer candidates, wire payload values).
`func` carries an id only so distinct function values exist. -/
inductive AnyJs where
  | undef
  | null
  | boolean (b : Bool)
  | number (n : Int)
  | str (s : String)
  | func (id : Nat)
  | obj (fields : List (String × AnyJs))

/-- JavaScript `typeof` on the modelled values; note `typeof null === "object"`. -/
def jsTypeof : AnyJs → String
  | .undef => "undefined"
  | .null => "object"
  | .boolean _ => "boolean"
  | .number _ => "number"
  | .str _ => "string"
  | .func _ => "function"
  | .obj _ => "object"

/-- Property access `o[m]` restricted to own properties of plain objects
(the only case the source reaches after its typeof/null guard). -/
def getProp : AnyJs → String → Option AnyJs
  | .obj fields, m => fields.lookup m
  | _, _ => none

/-- `o === null` test. -/
def isNullJs : AnyJs → Bool
  | .null => true
  | _ => false

/-- Source `implementsAnyMethods`: false unless `typeof obj === "object"` and
`obj !== null`; otherwise true iff some listed method is a property whose
value has `typeof === "function"`. -/
def implementsAnyMethods (o : AnyJs) (methods : List String) : Bool :=
  if jsTypeof o != "object" || isNullJs o then false
  else
    methods.any fun m => (getProp o m).map jsTypeof == some "function"

/-- Source `isPartialObserver`. -/
def isPartialObserver (o : AnyJs) : Bool :=
  implementsAnyMethods o ["next", "error", "complete"]

/-- Ordering index capabilities: the three well-known indexes plus
`PathIndex`, identified by its canonical path string. The core compares
index identity and renders a string form, nothing more. -/
inductive Index where
  | priority
  | value
  | key
  | path (p : String)
deriving DecidableEq

/-- Modelled from the spec: the canonical string form of an index capability
(`Index.toString` of the snap/indexes classes, which are not in the excerpt);
used only as an opaque string by this core. -/
def Index.toString : Index → String
  | .priority => ".priority"
  | .value => ".value"
  | .key => ".key"
  | .path p => p

/-- Modelled from the spec: the domain's minimum sentinel key name
(`MIN_NAME` from util/util, not in the excerpt). -/
def MIN_NAME : String := "[MIN_NAME]"

/-- Modelled from the spec: the domain's maximum sentinel key name
(`MAX_NAME` from util/util, not in the excerpt). -/
def MAX_NAME : String := "[MAX_NAME]"

/-- An optional `key?: string | null` argument: absent/undefined, null,
or an actual string. -/
inductive KeyArg where
  | undef
  | null
  | str (s : String)

/-- The `QueryParams` instance fields with their initializers
(source lines 95-113). `indexEndName_` is typed `Option String` because the
source can store JavaScript `null` in it (see `endAt`); `none` is null. -/
structure QueryParams where
  limitSet_ : Bool := false
  startSet_ : Bool := false
  startNameSet_ : Bool := false
  endSet_ : Bool := false
  endNameSet_ : Bool := false
  findSet_ : Bool := false
  aggregateSet_ : Bool := false
  limit_ : Int := 0
  viewFrom_ : String := ""
  indexStartValue_ : AnyJs := AnyJs.null
  indexStartName_ : String := ""
  indexEndValue_ : AnyJs := AnyJs.null
  indexEndName_ : Option String := some ""
  findFilter_ : AnyJs := AnyJs.null
  findOption_ : AnyJs := AnyJs.null
  aggregatePipeline_ : AnyJs := AnyJs.null
  index_ : Index := Index.priority

/-- The default, empty query parameters (`QueryParams.DEFAULT`). -/
def QueryParams.DEFAULT : QueryParams := {}

/-- Source `copy_` (lines 278-297): a fresh instance with the listed fields
copied. The source copies every field except `aggregateSet_`, which
therefore takes its initializer `false` in the copy; the model reproduces
that omission. -/
def QueryParams.copy_ (q : QueryParams) : QueryParams :=
  { limitSet_ := q.limitSet_
    limit_ := q.limit_
    startSet_ := q.startSet_
    indexStartValue_ := q.indexStartValue_
    startNameSet_ := q.startNameSet_
    findSet_ := q.findSet_
    indexStartName_ := q.indexStartName_
    endSet_ := q.endSet_
    indexEndValue_ := q.indexEndValue_
    endNameSet_ := q.endNameSet_
    indexEndName_ := q.indexEndName_
    index_ := q.index_
    viewFrom_ := q.viewFrom_
    findFilter_ := q.findFilter_
    findOption_ := q.findOption_
    aggregatePipeline_ := q.aggregatePipeline_ }

/-- `x === undefined ? null : x` normalization used by several transitions. -/
def undefToNull : AnyJs → AnyJs
  | .undef => .null
  | v => v

/-- Source `find(filter, option?)`. -/
def QueryParams.find (q : QueryParams) (filter option : AnyJs) : QueryParams :=
  { q.copy_ with
    findSet_ := true
    findFilter_ := undefToNull filter
    findOption_ := undefToNull option }

/-- Source `aggregate(pipeline)`. -/
def QueryParams.aggregate (q : QueryParams) (pipeline : AnyJs) : QueryParams :=
  { q.copy_ with
    aggregateSet_ := true
    aggregatePipeline_ := undefToNull pipeline }

/-- Source `limit(newLimit)`: unanchored, resets `viewFrom_` to `""`. -/
def QueryParams.limit (q : QueryParams) (newLimit : Int) : QueryParams :=
  { q.copy_ with limitSet_ := true, limit_ := newLimit, viewFrom_ := "" }

/-- Source `limitToFirst(newLimit)`: anchors with `VIEW_FROM_LEFT = "l"`. -/
def QueryParams.limitToFirst (q : QueryParams) (newLimit : Int) : QueryParams :=
  { q.copy_ with limitSet_ := true, limit_ := newLimit, viewFrom_ := "l" }

/-- Source `limitToLast(newLimit)`: anchors with `VIEW_FROM_RIGHT = "r"`. -/
def QueryParams.limitToLast (q : QueryParams) (newLimit : Int) : QueryParams :=
  { q.copy_ with limitSet_ := true, limit_ := newLimit, viewFrom_ := "r" }

/-- Source `startAt(indexValue, key?)`: the key branch tests `key != null`,
so both an absent and a `null` key clear the tie-break name. -/
def QueryParams.startAt (q : QueryParams) (indexValue : AnyJs) (key : KeyArg) :
    QueryParams :=
  match key with
  | .str k =>
      { q.copy_ with
        startSet_ := true
        indexStartValue_ := undefToNull indexValue
        startNameSet_ := true
        indexStartName_ := k }
  | _ =>
      { q.copy_ with
        startSet_ := true
        indexStartValue_ := undefToNull indexValue
        startNameSet_ := false
        indexStartName_ := "" }

/-- Source `endAt(indexValue, key?)`: the key branch tests `key !== undefined`,
so a `null` key still sets `endNameSet_` and stores null in `indexEndName_`. -/
def QueryParams.endAt (q : QueryParams) (indexValue : AnyJs) (key : KeyArg) :
    QueryParams :=
  match key with
  | .undef =>
      { q.copy_ with
        endSet_ := true
        indexEndValue_ := undefToNull indexValue
        endNameSet_ := false
        indexEndName_ := some "" }
  | .null =>
      { q.copy_ with
        endSet_ := true
        indexEndValue_ := undefToNull indexValue
        endNameSet_ := true
        indexEndName_ := none }
  | .str k =>
      { q.copy_ with
        endSet_ := true
        indexEndValue_ := undefToNull indexValue
        endNameSet_ := true
        indexEndName_ := some k }

/-- Source `orderBy(index)`. -/
def QueryParams.orderBy (q : QueryParams) (index : Index) : QueryParams :=
  { q.copy_ with index_ := index }

/-- Source `hasStart`. -/
def QueryParams.hasStart (q : QueryParams) : Bool := q.startSet_

/-- Source `hasEnd`. -/
def QueryParams.hasEnd (q : QueryParams) : Bool := q.endSet_

/-- Source `hasMongo`. -/
def QueryParams.hasMongo (q : QueryParams) : Bool := q.findSet_ || q.aggregateSet_

/-- Source `hasLimit`. -/
def QueryParams.hasLimit (q : QueryParams) : Bool := q.limitSet_

/-- Source `hasAnchoredLimit`. -/
def QueryParams.hasAnchoredLimit (q : QueryParams) : Bool :=
  q.limitSet_ && q.viewFrom_ != ""

/-- Source `isViewFromLeft`: if no anchor string is set, infer from
`startSet_`; otherwise compare the anchor against `VIEW_FROM_LEFT = "l"`. -/
def QueryParams.isViewFromLeft (q : QueryParams) : Bool :=
  if q.viewFrom_ = "" then q.startSet_ else q.viewFrom_ = "l"

/-- Source `getIndexStartValue`: `none` models the failed assertion
`assert(this.startSet_, ...)`. -/
def QueryParams.getIndexStartValue (q : QueryParams) : Option AnyJs :=
  if q.startSet_ then some q.indexStartValue_ else none

/-- Source `getIndexStartName`: asserts `startSet_`; falls back to the
minimum sentinel when no tie-break key was set. -/
def QueryParams.getIndexStartName (q : QueryParams) : Option String :=
  if q.startSet_ then
    (if q.startNameSet_ then some q.indexStartName_ else some MIN_NAME)
  else none

/-- Source `getIndexEndValue`: asserts `endSet_`. -/
def QueryParams.getIndexEndValue (q : QueryParams) : Option AnyJs :=
  if q.endSet_ then some q.indexEndValue_ else none

/-- Source `getIndexEndName`: asserts `endSet_`; returns the stored name
(which may be JavaScript null, the inner `none`) when the tie-break flag is
set, else the maximum sentinel. -/
def QueryParams.getIndexEndName (q : QueryParams) : Option (Option String) :=
  if q.endSet_ then
    (if q.endNameSet_ then some q.indexEndName_ else some (some MAX_NAME))
  else none

/-- Source `getLimit`: asserts `limitSet_`. -/
def QueryParams.getLimit (q : QueryParams) : Option Int :=
  if q.limitSet_ then some q.limit_ else none

/-- Source `getIndex`. -/
def QueryParams.getIndex (q : QueryParams) : Index := q.index_

/-- Source `loadsAllData`. -/
def QueryParams.loadsAllData (q : QueryParams) : Bool :=
  !(q.startSet_ || q.endSet_ || q.limitSet_) && !q.findSet_ && !q.aggregateSet_

/-- Source `isDefault`. -/
def QueryParams.isDefault (q : QueryParams) : Bool :=
  q.loadsAllData && q.index_ = Index.priority

/-- A string field that may hold JavaScript null, as a wire value. -/
def strOrNull : Option String → AnyJs
  | none => .null
  | some s => .str s

/-- Source `getMongoObject` (lines 427-438): tokens `f`,`p` for the find
mode, `a` for the aggregate mode, in emission order. -/
def QueryParams.getMongoObject (q : QueryParams) : List (String × AnyJs) :=
  (if q.findSet_ then [("f", q.findFilter_), ("p", q.findOption_)] else []) ++
  (if q.aggregateSet_ then [("a", q.aggregatePipeline_)] else [])

/-- Source `getQueryObject` (lines 443-475): tokens `sp`,`sn`,`ep`,`en`,
`l`,`vf`,`i`, each guarded exactly as in the source; when a limit is set
with no explicit anchor, `vf` is resolved through `isViewFromLeft`. -/
def QueryParams.getQueryObject (q : QueryParams) : List (String × AnyJs) :=
  (if q.startSet_ then
    ("sp", q.indexStartValue_) ::
      (if q.startNameSet_ then [("sn", AnyJs.str q.indexStartName_)] else [])
   else []) ++
  (if q.endSet_ then
    ("ep", q.indexEndValue_) ::
      (if q.endNameSet_ then [("en", strOrNull q.indexEndName_)] else [])
   else []) ++
  (if q.limitSet_ then
    [("l", AnyJs.number q.limit_),
     ("vf", AnyJs.str (if q.viewFrom_ = ""
        then (if q.isViewFromLeft then "l" else "r")
        else q.viewFrom_))]
   else []) ++
  (if q.index_ ≠ Index.priority then [("i", AnyJs.str q.index_.toString)] else [])

/-- The three node-filter strategies, carrying exactly the parameters the
source constructors receive. -/
inductive NodeFilter where
  | indexedFilter (index : Index)
  | limitedFilter (params : QueryParams)
  | rangedFilter (params : QueryParams)

/-- Source `getNodeFilter` (lines 498-506). -/
def QueryParams.getNodeFilter (q : QueryParams) : NodeFilter :=
  if q.loadsAllData then .indexedFilter q.getIndex
  else if q.hasLimit then .limitedFilter q
  else .rangedFilter q

/-- Modelled from the spec: the shared stable-stringify routine
(`stringify` of the firebase util package, not in the excerpt) — JSON
stringification of a value; only used as an opaque encoder here. -/
def stringify : AnyJs → String
  | .undef => "undefined"
  | .null => "null"
  | .boolean b => if b then "true" else "false"
  | .number n => ToString.toString n
  | .str s => "\x22" ++ s ++ "\x22"
  | .func _ => "undefined"
  | .obj _ => "[object]"

/-- A REST query-string parameter value: `string | number`. -/
inductive RestVal where
  | str (s : String)
  | num (n : Int)
deriving DecidableEq

/-- Source `toRestQueryStringParameters` (lines 513-557), in emission
order. The `assert(this.index_ instanceof PathIndex)` of the final
order-by branch is discharged by the exhaustive match on `Index`. -/
def QueryParams.toRestQueryStringParameters (q : QueryParams) :
    List (String × RestVal) :=
  if q.isDefault then []
  else
    (let ob : String :=
      match q.index_ with
      | .priority => "$priority"
      | .value => "$value"
      | .key => "$key"
      | .path p => (Index.path p).toString
    [("orderBy", RestVal.str (stringify (.str ob)))]) ++
    (if q.startSet_ then
      [("startAt", RestVal.str (stringify q.indexStartValue_ ++
        (if q.startNameSet_ then "," ++ stringify (.str q.indexStartName_)
         else "")))]
     else []) ++
    (if q.endSet_ then
      [("endAt", RestVal.str (stringify q.indexEndValue_ ++
        (if q.endNameSet_ then "," ++ stringify (strOrNull q.indexEndName_)
         else "")))]
     else []) ++
    (if q.limitSet_ then
      (if q.isViewFromLeft then [("limitToFirst", RestVal.num q.limit_)]
       else [("limitToLast", RestVal.num q.limit_)])
     else [])

/-- One public transition call on a descriptor, with its arguments. -/
inductive Transition where
  | find (filter option : AnyJs)
  | aggregate (pipeline : AnyJs)
  | limit (n : Int)
  | limitToFirst (n : Int)
  | limitToLast (n : Int)
  | startAt (v : AnyJs) (k : KeyArg)
  | endAt (v : AnyJs) (k : KeyArg)
  | orderBy (i : Index)

/-- Apply one transition to a descriptor. -/
def applyTransition (q : QueryParams) : Transition → QueryParams
  | .find f o => q.find f o
  | .aggregate p => q.aggregate p
  | .limit n => q.limit n
  | .limitToFirst n => q.limitToFirst n
  | .limitToLast n => q.limitToLast n
  | .startAt v k => q.startAt v k
  | .endAt v k => q.endAt v k
  | .orderBy i => q.orderBy i

/-- Run a sequence of transition calls from a starting descriptor. -/
def runTrace (q : QueryParams) (ts : List Transition) : QueryParams :=
  ts.foldl applyTransition q

/-- A descriptor is reachable when some sequence of public transition
calls produces it from `QueryParams.DEFAULT`. -/
def Reachable (q : QueryParams) : Prop :=
  ∃ ts : List Transition, runTrace QueryParams.DEFAULT ts = q

/-- Modelled from the spec: the user-facing API layer (not in the excerpt)
validates limit arguments — the class comment states validation of
parameters is done at that level, and the spec types the limit field as a
non-negative integer. A transition is valid when any limit argument it
carries is non-negative. -/
def Transition.valid : Transition → Prop
  | .limit n => 0 ≤ n
  | .limitToFirst n => 0 ≤ n
  | .limitToLast n => 0 ≤ n
  | _ => True

/-- Reachable through the validating user-facing API: every limit argument
along the trace is non-negative. -/
def ValidReachable (q : QueryParams) : Prop :=
  ∃ ts : List Transition, (∀ t ∈ ts, t.valid) ∧
    runTrace QueryParams.DEFAULT ts = q

/-- The structural invariant maintained by every transition: the anchor
string is one of `""`, `"l"`, `"r"`, and a tie-break-name flag is only set
together with its bound flag. -/
def StateInv (q : QueryParams) : Prop :=
  (q.viewFrom_ = "" ∨ q.viewFrom_ = "l" ∨ q.viewFrom_ = "r") ∧
  (q.startNameSet_ = true → q.startSet_ = true) ∧
  (q.endNameSet_ = true → q.endSet_ = true)

theorem stateInv_default : StateInv QueryParams.DEFAULT := by
  refine ⟨Or.inl rfl, ?_, ?_⟩ <;> simp [QueryParams.DEFAULT]

theorem stateInv_apply (q : QueryParams) (t : Transition) (h : StateInv q) :
    StateInv (applyTransition q t) := by
  obtain ⟨h1, h2, h3⟩ := h
  cases t with
  | find f o =>
      exact ⟨h1, h2, h3⟩
  | aggregate p =>
      exact ⟨h1, h2, h3⟩
  | limit n =>
      exact ⟨Or.inl rfl, h2, h3⟩
  | limitToFirst n =>
      exact ⟨Or.inr (Or.inl rfl), h2, h3⟩
  | limitToLast n =>
      exact ⟨Or.inr (Or.inr rfl), h2, h3⟩
  | startAt v k =>
      cases k <;> exact ⟨h1, by simp [applyTransition, QueryParams.startAt,
        QueryParams.copy_], h3⟩
  | endAt v k =>
      cases k <;> exact ⟨h1, h2, by simp [applyTransition, QueryParams.endAt,
        QueryParams.copy_]⟩
  | orderBy i =>
      exact ⟨h1, h2, h3⟩

theorem stateInv_runTrace (ts : List Transition) (q : QueryParams)
    (h : StateInv q) : StateInv (runTrace q ts) := by
  induction ts generalizing q with
  | nil => exact h
  | cons t ts ih => exact ih _ (stateInv_apply q t h)

theorem reachable_stateInv (q : QueryParams) (h : Reachable q) : StateInv q := by
  obtain ⟨ts, rfl⟩ := h
  exact stateInv_runTrace ts _ stateInv_default

theorem valid_limit_nonneg_apply (q : QueryParams) (t : Transition)
    (hv : t.valid) (h : 0 ≤ q.limit_) : 0 ≤ (applyTransition q t).limit_ := by
  cases t with
  | limit n => exact hv
  | limitToFirst n => exact hv
  | limitToLast n => exact hv
  | startAt v k =>
      cases k <;> simpa [applyTransition, QueryParams.startAt,
        QueryParams.copy_] using h
  | endAt v k =>
      cases k <;> simpa [applyTransition, QueryParams.endAt,
        QueryParams.copy_] using h
  | find f o => exact h
  | aggregate p => exact h
  | orderBy i => exact h

theorem valid_limit_nonneg_runTrace (ts : List Transition) (q : QueryParams)
    (hv : ∀ t ∈ ts, t.valid) (h : 0 ≤ q.limit_) :
    0 ≤ (runTrace q ts).limit_ := by
  induction ts generalizing q with
  | nil => exact h
  | cons t ts ih =>
      exact ih _ (fun u hu => hv u (List.mem_cons_of_mem t hu))
        (valid_limit_nonneg_apply q t (hv t (List.mem_cons_self t ts)) h)

/-- C9: `isPartialObserver(x)` returns true iff `x` exposes at least one of
`next`, `error`, `complete` as a callable member, for any input value and
independent of nominal type; in particular it returns false for `null` and
for non-object values. -/
theorem isPartialObserver_spec (x : AnyJs) :
    (isPartialObserver x = true ↔
      ∃ fields, x = AnyJs.obj fields ∧
        ∃ m ∈ (["next", "error", "complete"] : List String),
          ∃ v, fields.lookup m = some v ∧ jsTypeof v = "function") ∧
    isPartialObserver AnyJs.null = false ∧
    (jsTypeof x ≠ "object" → isPartialObserver x = false) := by
  refine ⟨?_, by decide, ?_⟩
  · cases x <;>
      simp [isPartialObserver, implementsAnyMethods, jsTypeof, isNullJs,
        getProp, List.any_eq_true, Option.map_eq_some']
  · intro hx
    cases x <;> simp_all [isPartialObserver, implementsAnyMethods, jsTypeof,
      isNullJs]

/-- C9 witness: a plain number is not an object and is rejected. -/
theorem isPartialObserver_spec_witness :
    jsTypeof (AnyJs.number 3) ≠ "object" ∧
      isPartialObserver (AnyJs.number 3) = false :=
  ⟨by decide, (isPartialObserver_spec (AnyJs.number 3)).2.2 (by decide)⟩

/-- C7: each bound/limit accessor returns normally iff the corresponding
has-predicate holds on the receiver, and fails its assertion iff it is
false (`none` models the failed assertion). -/
theorem accessor_assertion_iff (q : QueryParams) :
    (q.getIndexStartValue.isSome = true ↔ q.hasStart = true) ∧
    (q.getIndexStartName.isSome = true ↔ q.hasStart = true) ∧
    (q.getIndexEndValue.isSome = true ↔ q.hasEnd = true) ∧
    (q.getIndexEndName.isSome = true ↔ q.hasEnd = true) ∧
    (q.getLimit.isSome = true ↔ q.hasLimit = true) := by
  refine ⟨?_, ?_, ?_, ?_, ?_⟩ <;>
    simp only [QueryParams.getIndexStartValue, QueryParams.getIndexStartName,
      QueryParams.getIndexEndValue, QueryParams.getIndexEndName,
      QueryParams.getLimit, QueryParams.hasStart, QueryParams.hasEnd,
      QueryParams.hasLimit] <;>
    split_ifs <;> simp_all

/-- C5 counterexample: `endAt(null, null)` stores a JavaScript-null
tie-break name (`some none`), so `getIndexEndName()` does not return the
maximum sentinel — `endAt` tests `key !== undefined` where `startAt` tests
`key != null`, so a null key is not treated like an omitted one. -/
theorem endAt_null_key_not_sentinel :
    (QueryParams.DEFAULT.endAt AnyJs.null KeyArg.null).getIndexEndName ≠
      some (some MAX_NAME) := by
  simp [QueryParams.DEFAULT, QueryParams.endAt, QueryParams.copy_,
    QueryParams.getIndexEndName]

/-- C5 amended: a string key `k` makes `getIndexEndName()` return `k`, and
an omitted (undefined) key makes it return the maximum sentinel, mirroring
`startAt`/`getIndexStartName` with the minimum sentinel; but an explicit
null key sets the end tie-break flag and stores null (returned as the inner
`none`), unlike `startAt`, which treats null like an omitted key. -/
theorem endAt_key_handling (q : QueryParams) (v : AnyJs) :
    (∀ k, ((q.endAt v (KeyArg.str k)).getIndexEndName) = some (some k)) ∧
    ((q.endAt v KeyArg.undef).getIndexEndName = some (some MAX_NAME)) ∧
    ((q.endAt v KeyArg.null).getIndexEndName = some none) ∧
    (∀ k, ((q.startAt v (KeyArg.str k)).getIndexStartName) = some k) ∧
    ((q.startAt v KeyArg.undef).getIndexStartName = some MIN_NAME) ∧
    ((q.startAt v KeyArg.null).getIndexStartName = some MIN_NAME) := by
  refine ⟨fun k => ?_, ?_, ?_, fun k => ?_, ?_, ?_⟩ <;>
    simp [QueryParams.endAt, QueryParams.startAt, QueryParams.copy_,
      QueryParams.getIndexEndName, QueryParams.getIndexStartName]

/-- C4: evaluating the code at the failing input — `aggregate` sets the
aggregate flag, but a subsequent `startAt` copy drops it (the source
`copy_` omits `aggregateSet_`) while still copying the aggregate payload. -/
theorem copy_drops_aggregateSet :
    ((QueryParams.DEFAULT.aggregate (AnyJs.number 1)).aggregateSet_ = true) ∧
    (((QueryParams.DEFAULT.aggregate (AnyJs.number 1)).startAt
        (AnyJs.number 5) KeyArg.undef).aggregateSet_ = false) ∧
    (((QueryParams.DEFAULT.aggregate (AnyJs.number 1)).startAt
        (AnyJs.number 5) KeyArg.undef).aggregatePipeline_ = AnyJs.number 1) :=
  ⟨rfl, rfl, rfl⟩

set_option maxHeartbeats 1000000

/-- C1: a token appears in the rendered wire objects iff the corresponding
field is set: `sp` iff `hasStart`, `sn` iff `hasStart` and the start
tie-break key was explicitly set, `ep` iff `hasEnd`, `en` iff `hasEnd` and
the end tie-break key was explicitly set, `l` and `vf` iff `hasLimit`,
`i` iff the index is not the default priority index, `f` and `p` iff the
find mode is set, `a` iff the aggregate mode is set; absent tokens are
missing from the association list entirely. -/
theorem wire_token_iff_field_set (q : QueryParams) :
    ((q.getQueryObject.lookup "sp").isSome = true ↔ q.hasStart = true) ∧
    ((q.getQueryObject.lookup "sn").isSome = true ↔
      (q.hasStart = true ∧ q.startNameSet_ = true)) ∧
    ((q.getQueryObject.lookup "ep").isSome = true ↔ q.hasEnd = true) ∧
    ((q.getQueryObject.lookup "en").isSome = true ↔
      (q.hasEnd = true ∧ q.endNameSet_ = true)) ∧
    ((q.getQueryObject.lookup "l").isSome = true ↔ q.hasLimit = true) ∧
    ((q.getQueryObject.lookup "vf").isSome = true ↔ q.hasLimit = true) ∧
    ((q.getQueryObject.lookup "i").isSome = true ↔ q.index_ ≠ Index.priority) ∧
    ((q.getMongoObject.lookup "f").isSome = true ↔ q.findSet_ = true) ∧
    ((q.getMongoObject.lookup "p").isSome = true ↔ q.findSet_ = true) ∧
    ((q.getMongoObject.lookup "a").isSome = true ↔ q.aggregateSet_ = true) := by
  obtain ⟨ls, ss, sns, es, ens, fs, ags, l, vfm, isv, isn, iev, ien, ff, fo,
    ap, idx⟩ := q
  simp only [QueryParams.getQueryObject, QueryParams.getMongoObject,
    QueryParams.hasStart, QueryParams.hasEnd, QueryParams.hasLimit]
  cases ss <;> cases sns <;> cases es <;> cases ens <;> cases ls <;>
    cases fs <;> cases ags <;> by_cases hidx : idx = Index.priority <;>
    simp_all [List.lookup]

/-- C2: `getNodeFilter()` is total and unambiguous: it returns the indexed
(full-scan) filter parameterized by the ordering index iff `loadsAllData()`
holds, the limited-window filter parameterized by the whole descriptor iff
`hasLimit()` holds (regardless of bounds), and the ranged filter iff
neither holds. -/
theorem getNodeFilter_selection (q : QueryParams) :
    (q.getNodeFilter = NodeFilter.indexedFilter q.getIndex ↔
      q.loadsAllData = true) ∧
    (q.getNodeFilter = NodeFilter.limitedFilter q ↔ q.hasLimit = true) ∧
    (q.getNodeFilter = NodeFilter.rangedFilter q ↔
      (q.loadsAllData = false ∧ q.hasLimit = false)) := by
  have hl : q.loadsAllData = true → q.hasLimit = false := by
    simp only [QueryParams.loadsAllData, QueryParams.hasLimit]
    intro h
    simp only [Bool.and_eq_true, Bool.not_eq_true', Bool.or_eq_false_iff] at h
    exact h.1.1.2
  by_cases h1 : q.loadsAllData = true
  · have h2 := hl h1
    simp [QueryParams.getNodeFilter, h1, h2]
  · by_cases h2 : q.hasLimit = true
    · simp [QueryParams.getNodeFilter, h1, h2]
    · simp_all [QueryParams.getNodeFilter]

/-- C3: on every reachable descriptor, `isViewFromLeft()` returns whether
the anchor equals left when one was explicitly set, and otherwise returns
whether a start bound is present; when a limit is set the wire `vf` token
always resolves to `"l"` or `"r"` by the same rule. -/
theorem isViewFromLeft_resolution (q : QueryParams) (hq : Reachable q) :
    (q.viewFrom_ ≠ "" → (q.isViewFromLeft = true ↔ q.viewFrom_ = "l")) ∧
    (q.viewFrom_ = "" → q.isViewFromLeft = q.startSet_) ∧
    (q.hasLimit = true →
      q.getQueryObject.lookup "vf" =
        some (AnyJs.str (if q.isViewFromLeft then "l" else "r"))) := by
  obtain ⟨hvf, -, -⟩ := reachable_stateInv q hq
  refine ⟨?_, ?_, ?_⟩
  · intro h
    simp [QueryParams.isViewFromLeft, h]
  · intro h
    simp [QueryParams.isViewFromLeft, h]
  · intro hlim
    obtain ⟨ls, ss, sns, es, ens, fs, ags, l, vfm, isv, isn, iev, ien, ff,
      fo, ap, idx⟩ := q
    simp only [QueryParams.hasLimit] at hlim
    subst hlim
    rcases hvf with h | h | h <;> subst h <;>
      cases ss <;> cases sns <;> cases es <;> cases ens <;>
      simp_all [QueryParams.getQueryObject, QueryParams.isViewFromLeft,
        List.lookup]

/-- C3 witness: `DEFAULT.startAt(5).limit(3)` is reachable, has an
unanchored limit, and its wire `vf` token resolves to `"l"`. -/
theorem isViewFromLeft_resolution_witness :
    ((QueryParams.DEFAULT.startAt (AnyJs.number 5) KeyArg.undef).limit 3
      ).getQueryObject.lookup "vf" = some (AnyJs.str "l") := by
  have hr : Reachable
      ((QueryParams.DEFAULT.startAt (AnyJs.number 5) KeyArg.undef).limit 3) :=
    ⟨[Transition.startAt (AnyJs.number 5) KeyArg.undef, Transition.limit 3],
      rfl⟩
  have h := (isViewFromLeft_resolution _ hr).2.2 rfl
  simpa [QueryParams.limit, QueryParams.startAt, QueryParams.copy_,
    QueryParams.DEFAULT, QueryParams.isViewFromLeft] using h

/-- C10: on every reachable descriptor the start tie-break-key flag implies
the start flag and the end tie-break-key flag implies the end flag; and in
any rendered wire object the `sn` token never appears without `sp`, nor
`en` without `ep`. -/
theorem tiebreak_requires_bound (q : QueryParams) (hq : Reachable q) :
    (q.startNameSet_ = true → q.startSet_ = true) ∧
    (q.endNameSet_ = true → q.endSet_ = true) ∧
    ((q.getQueryObject.lookup "sn").isSome = true →
      (q.getQueryObject.lookup "sp").isSome = true) ∧
    ((q.getQueryObject.lookup "en").isSome = true →
      (q.getQueryObject.lookup "ep").isSome = true) := by
  obtain ⟨-, h2, h3⟩ := reachable_stateInv q hq
  refine ⟨h2, h3, ?_, ?_⟩ <;>
  · obtain ⟨ls, ss, sns, es, ens, fs, ags, l, vfm, isv, isn, iev, ien, ff,
      fo, ap, idx⟩ := q
    cases ss <;> cases sns <;> cases es <;> cases ens <;> cases ls <;>
      by_cases hidx : idx = Index.priority <;>
      simp_all [QueryParams.getQueryObject, List.lookup]

/-- C10 witness: a concrete reachable descriptor with the start tie-break
key set also has the start bound set. -/
theorem tiebreak_requires_bound_witness :
    (QueryParams.DEFAULT.startAt (AnyJs.number 5) (KeyArg.str "k")
      ).startSet_ = true :=
  (tiebreak_requires_bound _
    ⟨[Transition.startAt (AnyJs.number 5) (KeyArg.str "k")], rfl⟩).1 rfl

/-- C6: the REST parameter set is empty iff `isDefault()` holds; a
non-default descriptor always carries an `orderBy` parameter; and a set
limit emits exactly one of `limitToFirst`/`limitToLast` with the raw
limit, chosen by `isViewFromLeft()`. -/
theorem restParameters_spec (q : QueryParams) :
    (q.toRestQueryStringParameters = [] ↔ q.isDefault = true) ∧
    (q.isDefault = false →
      (q.toRestQueryStringParameters.lookup "orderBy").isSome = true) ∧
    (q.hasLimit = true → q.isViewFromLeft = true →
      q.toRestQueryStringParameters.lookup "limitToFirst" =
          some (RestVal.num q.limit_) ∧
        q.toRestQueryStringParameters.lookup "limitToLast" = none) ∧
    (q.hasLimit = true → q.isViewFromLeft = false →
      q.toRestQueryStringParameters.lookup "limitToFirst" = none ∧
        q.toRestQueryStringParameters.lookup "limitToLast" =
          some (RestVal.num q.limit_)) := by
  obtain ⟨ls, ss, sns, es, ens, fs, ags, l, vfm, isv, isn, iev, ien, ff, fo,
    ap, idx⟩ := q
  simp only [QueryParams.toRestQueryStringParameters, QueryParams.isDefault,
    QueryParams.loadsAllData, QueryParams.hasLimit,
    QueryParams.isViewFromLeft]
  cases ls <;> cases ss <;> cases es <;> cases fs <;> cases ags <;>
    rcases idx with _ | _ | _ | p <;> by_cases hv : vfm = "" <;>
    simp_all [List.lookup]

/-- C6 witness: `DEFAULT.limitToFirst(3)` emits `limitToFirst = 3` and no
`limitToLast`, and is not default. -/
theorem restParameters_spec_witness :
    (QueryParams.DEFAULT.limitToFirst 3
        ).toRestQueryStringParameters.lookup "limitToFirst" =
      some (RestVal.num 3) ∧
    (QueryParams.DEFAULT.limitToFirst 3
        ).toRestQueryStringParameters.lookup "limitToLast" = none := by
  have h := (restParameters_spec (QueryParams.DEFAULT.limitToFirst 3)).2.2.1
    rfl rfl
  exact h

/-- C8: on every descriptor reachable through the validating user-facing
API, a set limit is non-negative; the unanchored `limit` transition always
clears the anchor while `limitToFirst`/`limitToLast` always set one. -/
theorem limit_transitions_spec :
    (∀ q : QueryParams, ValidReachable q → q.hasLimit = true →
      0 ≤ q.limit_) ∧
    (∀ (q : QueryParams) (n : Int),
      (q.limit n).hasAnchoredLimit = false ∧
      (q.limitToFirst n).hasAnchoredLimit = true ∧
      (q.limitToLast n).hasAnchoredLimit = true) := by
  constructor
  · rintro q ⟨ts, hv, rfl⟩ -
    exact valid_limit_nonneg_runTrace ts _ hv le_rfl
  · intro q n
    refine ⟨?_, ?_, ?_⟩ <;>
      simp [QueryParams.limit, QueryParams.limitToFirst,
        QueryParams.limitToLast, QueryParams.hasAnchoredLimit,
        QueryParams.copy_]

/-- C8 witness: `DEFAULT.limitToFirst(3)` is validly reachable with a
non-negative limit, and `DEFAULT.limit(3)` has no anchored limit. -/
theorem limit_transitions_spec_witness :
    0 ≤ (QueryParams.DEFAULT.limitToFirst 3).limit_ ∧
    (QueryParams.DEFAULT.limit 3).hasAnchoredLimit = false := by
  constructor
  · refine limit_transitions_spec.1 _
      ⟨[Transition.limitToFirst 3], ?_, rfl⟩ rfl
    intro t ht
    simp only [List.mem_singleton] at ht
    subst ht
    exact (by norm_num : (0 : Int) ≤ 3)
  · exact (limit_transitions_spec.2 QueryParams.DEFAULT 3).1
